import Mathlib

/-!
ESP32 CAN ECU: the control loop of `src/main.cpp`.

A shallow embedding of the globals of `main.cpp` (the ECU state, the timers, the
LED blink state), of `readDistance`, `updateReverseLed` and of one pass of `loop`,
followed by theorems about them.

Conventions.
* `unsigned long` is 32 bits wide on the ESP32; clock values are naturals and the
  subtraction `now - last` is `sub32`, taken modulo `2^32`.
* `uint8_t` and `uint16_t` values are naturals; the places where the C code narrows
  a value carry an explicit `% 256` or `% 65536`.
* `float` is the type `Flt`: NaN, the two infinities, or a finite value.
* What the hardware hands to the program during one pass of `loop` (the clock, the
  frames waiting in the TWAI receive queue, the DHT readings, the echo pulse) is
  gathered in `TickInput`.
* The level of `REVERSE_LED_PIN` set by `digitalWrite` is the field `ledPin`.
-/

namespace CanEcu

/-! ## Floats -/

/-- A value of the C type `float`: NaN, an infinity, or a finite value. -/
inductive Flt where
  | nan : Flt
  | inf (negative : Bool) : Flt
  | fin (q : ℚ) : Flt
deriving DecidableEq

/-- The test `isnan(x)`. -/
def Flt.isnan : Flt → Bool
  | .nan => true
  | .inf _ => false
  | .fin _ => false

/-- The comparison `x >= n` of a float with an integer constant `n` (which converts
to `float` exactly); every comparison with NaN is false. -/
def Flt.geInt : Flt → Int → Bool
  | .nan, _ => false
  | .inf negative, _ => !negative
  | .fin q, n => decide ((n : ℚ) ≤ q)

/-- The value of a finite float truncated toward zero. -/
def truncToward0 (q : ℚ) : Int := Int.tdiv q.num (q.den : Int)

/-- The byte stored by `tx.data[1] = (int8_t)x`. When the truncated value is not
representable in `int8_t` (or `x` is not finite) C++ leaves the conversion undefined;
the byte the target then produces is the argument `ub`. -/
def Flt.toInt8Byte (x : Flt) (ub : Nat) : Nat :=
  match x with
  | .fin q =>
    if -128 ≤ truncToward0 q ∧ truncToward0 q ≤ 127 then (truncToward0 q % 256).toNat
    else ub % 256
  | .nan => ub % 256
  | .inf _ => ub % 256

/-- The byte stored by `tx.data[2] = (uint8_t)x`, with `ub` as for `toInt8Byte`. -/
def Flt.toUInt8Byte (x : Flt) (ub : Nat) : Nat :=
  match x with
  | .fin q =>
    if 0 ≤ truncToward0 q ∧ truncToward0 q ≤ 255 then (truncToward0 q).toNat
    else ub % 256
  | .nan => ub % 256
  | .inf _ => ub % 256

/-! ## Constants -/

def LED_BLINK_SLOW_MS : Nat := 500
def LED_BLINK_NORMAL_MS : Nat := 250
def LED_BLINK_FAST_MS : Nat := 100
def SENSOR_INTERVAL_MS : Nat := 500

/-- The subtraction `a - b` of two `unsigned long` values (32 bits). -/
def sub32 (a b : Nat) : Nat := (a % 4294967296 + (4294967296 - b % 4294967296)) % 4294967296

/-! ## State -/

/-- A TWAI message: the fields of `twai_message_t` that `loop` reads or writes. -/
structure Frame where
  identifier : Nat
  data_length_code : Nat
  data : List Nat
deriving DecidableEq

/-- The byte `m.data[i]`. -/
def Frame.byte (m : Frame) (i : Nat) : Nat := m.data.getD i 0

/-- The value-initialised message `twai_message_t tx{}`. -/
def Frame.zero : Frame := ⟨0, 0, [0, 0, 0, 0, 0, 0, 0, 0]⟩

/-- The globals of `main.cpp` together with the level of the LED output line. -/
structure ECU where
  sensorsEnabled : Bool
  forcedFault : Bool
  temperature : Flt
  humidity : Flt
  distanceCm : Nat
  faultFlags : Nat
  lastDhtRead : Nat
  lastUltrasonicRead : Nat
  lastLedToggle : Nat
  ledState : Bool
  ledPin : Bool
deriving DecidableEq

/-- The globals as initialised at startup; `setup` writes the LED line LOW. -/
def ECU.init : ECU :=
  { sensorsEnabled := false, forcedFault := false, temperature := .fin 0,
    humidity := .fin 0, distanceCm := 0, faultFlags := 0, lastDhtRead := 0,
    lastUltrasonicRead := 0, lastLedToggle := 0, ledState := false, ledPin := false }

/-- What the environment supplies during one pass of `loop`. -/
structure TickInput where
  /-- the value of `millis()` read at the top of `loop` -/
  now : Nat
  /-- the messages `twai_receive` returns before it first fails -/
  rx : List Frame
  /-- the result of `dht.readTemperature()` -/
  dhtT : Flt
  /-- the result of `dht.readHumidity()` -/
  dhtH : Flt
  /-- the result of `pulseIn(ECHO_PIN, HIGH, 40000)` -/
  pulse : Nat
  /-- the value of `millis()` read inside `updateReverseLed` -/
  ledNow : Nat
  /-- the byte of an unrepresentable `(int8_t)temperature` -/
  ubTemp : Nat
  /-- the byte of an unrepresentable `(uint8_t)humidity` -/
  ubHum : Nat

/-! ## Operations -/

/-- The conversion of an `unsigned long` to `long` (32 bits, two's complement). -/
def toLong (u : Nat) : Int :=
  if u % 4294967296 < 2147483648 then (u % 4294967296 : Nat) else ((u % 4294967296 : Nat) : Int) - 4294967296

/-- The function `readDistance`, given the pulse length `pulseIn` returns. -/
def readDistance (pulse : Nat) : Nat :=
  let duration := toLong pulse
  if duration = 0 then 0
  else (Int.tdiv duration 58 % 65536).toNat

/-- Lines 88 to 93 of `updateReverseLed`: toggle when the interval has elapsed. -/
def toggleIfDue (s : ECU) (now interval : Nat) : ECU :=
  if sub32 now s.lastLedToggle ≥ interval then
    { s with ledState := !s.ledState, ledPin := !s.ledState, lastLedToggle := now }
  else s

/-- The function `updateReverseLed`; `now` is the value `millis()` returns in it. -/
def updateReverseLed (s : ECU) (now : Nat) : ECU :=
  if s.sensorsEnabled = false ∨ s.distanceCm = 0 then
    { s with ledPin := false }
  else if s.distanceCm ≤ 15 then
    toggleIfDue s now LED_BLINK_FAST_MS
  else if s.distanceCm ≤ 30 then
    toggleIfDue s now LED_BLINK_NORMAL_MS
  else
    { s with ledPin := true }

/-- The body of the receive loop (lines 133 to 139) for one message. -/
def applyFrame (s : ECU) (rx : Frame) : ECU :=
  if rx.identifier = 0x200 ∧ rx.data_length_code ≥ 2 then
    let s1 := if rx.byte 0 = 0x01 then { s with sensorsEnabled := decide (rx.byte 1 ≠ 0) } else s
    if rx.byte 0 = 0x02 then { s1 with forcedFault := decide (rx.byte 1 ≠ 0) } else s1
  else s

/-- The receive loop (lines 131 to 140) over the queued messages. -/
def drain (s : ECU) (q : List Frame) : ECU := q.foldl applyFrame s

/-- The DHT block (lines 142 to 153). -/
def dhtStep (s : ECU) (now : Nat) (t h : Flt) : ECU :=
  if sub32 now s.lastDhtRead ≥ SENSOR_INTERVAL_MS then
    let s1 := if t.isnan = false ∧ h.isnan = false then { s with temperature := t, humidity := h } else s
    { s1 with lastDhtRead := now }
  else s

/-- The ultrasonic block (lines 155 to 159). -/
def ultrasonicStep (s : ECU) (now pulse : Nat) : ECU :=
  if s.sensorsEnabled = true ∧ sub32 now s.lastUltrasonicRead ≥ SENSOR_INTERVAL_MS then
    { s with distanceCm := readDistance pulse, lastUltrasonicRead := now }
  else s

/-- The statement `faultFlags |= (1 << k)` on a `uint8_t`. -/
def orBit (flags k : Nat) : Nat := (flags ||| (1 <<< k)) % 256

/-- The fault block (lines 163 to 173). -/
def faultStep (s : ECU) : ECU :=
  let s0 := { s with faultFlags := 0 }
  let s1 := if s0.temperature.isnan = true then { s0 with faultFlags := orBit s0.faultFlags 0 } else s0
  let s2 := if s1.sensorsEnabled = true ∧ s1.distanceCm = 0 then { s1 with faultFlags := orBit s1.faultFlags 1 } else s1
  let s3 := if s2.temperature.geInt 90 = true then { s2 with faultFlags := orBit s2.faultFlags 2 } else s2
  let s4 := if s3.sensorsEnabled = true ∧ s3.distanceCm ≤ 30 then { s3 with faultFlags := orBit s3.faultFlags 3 } else s3
  if s4.forcedFault = true then { s4 with faultFlags := orBit s4.faultFlags 7 } else s4

/-- The conversion of a `bool` to a byte. -/
def boolByte (b : Bool) : Nat := if b then 1 else 0

/-- The transmit block (lines 176 to 185): the message handed to `twai_transmit`. -/
def buildTx (s : ECU) (ubTemp ubHum : Nat) : Frame :=
  let tx := Frame.zero
  let tx := { tx with identifier := 0x100 }
  let tx := { tx with data_length_code := 8 }
  let tx := { tx with data := tx.data.set 0 50 }
  let tx := { tx with data := tx.data.set 1 (s.temperature.toInt8Byte ubTemp) }
  let tx := { tx with data := tx.data.set 2 (s.humidity.toUInt8Byte ubHum) }
  let tx := { tx with data := tx.data.set 3 (s.faultFlags % 256) }
  let tx := { tx with data := tx.data.set 4 (boolByte s.sensorsEnabled) }
  { tx with data := tx.data.set 5 (boolByte s.forcedFault) }

/-- One pass of `loop` up to `twai_transmit`: the new globals and the message sent. -/
def loop (s : ECU) (i : TickInput) : ECU × Frame :=
  let s := drain s i.rx
  let s := dhtStep s i.now i.dhtT i.dhtH
  let s := ultrasonicStep s i.now i.pulse
  let s := updateReverseLed s i.ledNow
  let s := faultStep s
  (s, buildTx s i.ubTemp i.ubHum)

/-- The globals at the moment a pass of `loop` calls `updateReverseLed` (line 161). -/
def ledCallState (s : ECU) (i : TickInput) : ECU :=
  ultrasonicStep (dhtStep (drain s i.rx) i.now i.dhtT i.dhtH) i.now i.pulse

/-- The globals after a sequence of passes of `loop`. -/
def run (s : ECU) (is : List TickInput) : ECU := is.foldl (fun st i => (loop st i).1) s

/-! ## The pass in the order the specification gives -/

/-- One pass in the order of the specification: (a) drain the inbound messages,
(b) refresh the samplers that are due, (c) recompute the fault flags, (d) advance the
LED, (e) build the status message. -/
def loopSpecOrder (s : ECU) (i : TickInput) : ECU × Frame :=
  let a := drain s i.rx
  let b := ultrasonicStep (dhtStep a i.now i.dhtT i.dhtH) i.now i.pulse
  let c := faultStep b
  let d := updateReverseLed c i.ledNow
  (d, buildTx d i.ubTemp i.ubHum)

/-! ## The command protocol as the specification words it -/

/-- Whether a message is a valid command for the field selected by `code`: identifier
0x200, payload length at least 2, byte 0 equal to `code`. -/
def isCommand (code : Nat) (rx : Frame) : Bool :=
  decide (rx.identifier = 0x200 ∧ rx.data_length_code ≥ 2 ∧ rx.byte 0 = code)

/-- The value (byte 1 nonzero) carried by the last valid command with the given code
in a sequence of messages, if there is one. -/
def lastCommand (code : Nat) (q : List Frame) : Option Bool :=
  (q.filter (isCommand code)).getLast?.map (fun rx => decide (rx.byte 1 ≠ 0))

/-- A command message with the given selector and value bytes. -/
def Frame.command (code value : Nat) : Frame := ⟨0x200, 2, [code, value, 0, 0, 0, 0, 0, 0]⟩

/-- A pass of `loop` at clock value `now` with an empty receive queue and readings of
25 degrees, 40 percent and an echo pulse of the given length. -/
def TickInput.quiet (now pulse : Nat) : TickInput :=
  { now := now, rx := [], dhtT := .fin 25, dhtH := .fin 40, pulse := pulse, ledNow := now,
    ubTemp := 0, ubHum := 0 }

/-- A pass of `loop` like `TickInput.quiet` whose receive queue holds one command. -/
def TickInput.command (now pulse code value : Nat) : TickInput :=
  { TickInput.quiet now pulse with rx := [Frame.command code value] }

/-- Globals with the sensors enabled and the given distance, toggle time, blink state
and line level; the other globals as at startup. -/
def ECU.reversing (d last : Nat) (blink pin : Bool) : ECU :=
  { ECU.init with sensorsEnabled := true, distanceCm := d, lastLedToggle := last,
                  ledState := blink, ledPin := pin }

/-! ## The fault mask -/

/-- The mask `faultStep` leaves in `faultFlags`, as a sum over the five conditions. -/
theorem faultStep_flags (s : ECU) :
    (faultStep s).faultFlags =
      (if s.temperature.isnan = true then 1 else 0) +
      (if decide (s.sensorsEnabled = true ∧ s.distanceCm = 0) = true then 2 else 0) +
      (if s.temperature.geInt 90 = true then 4 else 0) +
      (if decide (s.sensorsEnabled = true ∧ s.distanceCm ≤ 30) = true then 8 else 0) +
      (if s.forcedFault = true then 128 else 0) := by
  unfold faultStep
  simp only [decide_eq_true_eq]
  split_ifs <;> simp [orBit]

/-- The bits of a mask assembled from five conditions. -/
theorem mask_bits (a b c d e : Bool) :
    let m := (if a = true then 1 else 0) + (if b = true then 2 else 0) +
      (if c = true then 4 else 0) + (if d = true then 8 else 0) + (if e = true then 128 else 0)
    Nat.testBit m 0 = a ∧ Nat.testBit m 1 = b ∧ Nat.testBit m 2 = c ∧ Nat.testBit m 3 = d ∧
    Nat.testBit m 4 = false ∧ Nat.testBit m 5 = false ∧ Nat.testBit m 6 = false ∧
    Nat.testBit m 7 = e ∧ m < 256 := by
  revert a b c d e
  decide

/-- The fault block writes `faultFlags` and nothing else. -/
theorem faultStep_eq (s : ECU) :
    faultStep s = { s with faultFlags := (faultStep s).faultFlags } := by
  unfold faultStep
  simp only []
  split_ifs <;> rfl

theorem faultStep_bit1 (s : ECU) :
    (faultStep s).faultFlags.testBit 1 = decide (s.sensorsEnabled = true ∧ s.distanceCm = 0) := by
  rw [faultStep_flags]
  exact (mask_bits _ _ _ _ _).2.1

theorem faultStep_bit2 (s : ECU) :
    (faultStep s).faultFlags.testBit 2 = s.temperature.geInt 90 := by
  rw [faultStep_flags]
  exact (mask_bits _ _ _ _ _).2.2.1

theorem faultStep_bit3 (s : ECU) :
    (faultStep s).faultFlags.testBit 3 = decide (s.sensorsEnabled = true ∧ s.distanceCm ≤ 30) := by
  rw [faultStep_flags]
  exact (mask_bits _ _ _ _ _).2.2.2.1

theorem faultStep_bit7 (s : ECU) :
    (faultStep s).faultFlags.testBit 7 = s.forcedFault := by
  rw [faultStep_flags]
  exact (mask_bits _ _ _ _ _).2.2.2.2.2.2.2.1

theorem faultStep_lt (s : ECU) : (faultStep s).faultFlags < 256 := by
  rw [faultStep_flags]
  exact (mask_bits _ _ _ _ _).2.2.2.2.2.2.2.2

/-- The globals on which the fault block of a pass of `loop` runs. -/
theorem loop_fst (s : ECU) (i : TickInput) :
    (loop s i).1 = faultStep (updateReverseLed (ultrasonicStep
      (dhtStep (drain s i.rx) i.now i.dhtT i.dhtH) i.now i.pulse) i.ledNow) := rfl

theorem loop_snd (s : ECU) (i : TickInput) :
    (loop s i).2 = buildTx (loop s i).1 i.ubTemp i.ubHum := rfl

/-- C1: for every ECU state, the fault mask computed by the fault block has bit 2 set
exactly when `temperature >= 90` and bit 7 set exactly when `forcedFault` is true;
replacing `sensorsEnabled`, `humidity`, `distanceCm` and the previous `faultFlags` by
any other values changes neither bit; and after a whole pass of `loop` the two bits
of `faultFlags` reflect the temperature and `forcedFault` of that pass. -/
theorem C1_fault_bits_2_and_7 (s : ECU) :
    ((faultStep s).faultFlags.testBit 2 = true ↔ s.temperature.geInt 90 = true) ∧
    ((faultStep s).faultFlags.testBit 7 = true ↔ s.forcedFault = true) ∧
    (∀ (se : Bool) (h : Flt) (d ff : Nat),
      (faultStep { s with sensorsEnabled := se, humidity := h, distanceCm := d,
                          faultFlags := ff }).faultFlags.testBit 2
        = (faultStep s).faultFlags.testBit 2 ∧
      (faultStep { s with sensorsEnabled := se, humidity := h, distanceCm := d,
                          faultFlags := ff }).faultFlags.testBit 7
        = (faultStep s).faultFlags.testBit 7) ∧
    (∀ i : TickInput,
      ((loop s i).1.faultFlags.testBit 2 = true ↔ (loop s i).1.temperature.geInt 90 = true) ∧
      ((loop s i).1.faultFlags.testBit 7 = true ↔ (loop s i).1.forcedFault = true)) := by
  refine ⟨by rw [faultStep_bit2], by rw [faultStep_bit7], ?_, ?_⟩
  · intro se h d ff
    simp only [faultStep_bit2, faultStep_bit7, and_self]
  · intro i
    rw [loop_fst]
    generalize updateReverseLed _ _ = x
    rw [faultStep_bit2, faultStep_bit7, faultStep_eq x]
    exact ⟨Iff.rfl, Iff.rfl⟩

/-- C2: for every ECU state, the fault mask computed by the fault block has bit 1 set
exactly when `sensorsEnabled` is true and `distanceCm = 0`, and bit 3 set exactly when
`sensorsEnabled` is true and `distanceCm <= 30`; with `sensorsEnabled` false both bits
are clear whatever `distanceCm` is; the same holds for the mask left by a pass of
`loop`, read against the globals of that pass. -/
theorem C2_fault_bits_1_and_3 (s : ECU) :
    ((faultStep s).faultFlags.testBit 1 = true ↔ (s.sensorsEnabled = true ∧ s.distanceCm = 0)) ∧
    ((faultStep s).faultFlags.testBit 3 = true ↔ (s.sensorsEnabled = true ∧ s.distanceCm ≤ 30)) ∧
    (∀ d : Nat,
      (faultStep { s with sensorsEnabled := false, distanceCm := d }).faultFlags.testBit 1 = false ∧
      (faultStep { s with sensorsEnabled := false, distanceCm := d }).faultFlags.testBit 3 = false) ∧
    (∀ i : TickInput,
      ((loop s i).1.faultFlags.testBit 1 = true ↔
        ((loop s i).1.sensorsEnabled = true ∧ (loop s i).1.distanceCm = 0)) ∧
      ((loop s i).1.faultFlags.testBit 3 = true ↔
        ((loop s i).1.sensorsEnabled = true ∧ (loop s i).1.distanceCm ≤ 30))) := by
  refine ⟨by rw [faultStep_bit1, decide_eq_true_eq], by rw [faultStep_bit3, decide_eq_true_eq],
    ?_, ?_⟩
  · intro d
    simp [faultStep_bit1, faultStep_bit3]
  · intro i
    rw [loop_fst]
    generalize updateReverseLed _ _ = x
    rw [faultStep_bit1, faultStep_bit3, faultStep_eq x, decide_eq_true_eq, decide_eq_true_eq]
    exact ⟨Iff.rfl, Iff.rfl⟩

/-- C3: for every state and every input of a pass of `loop`, the message handed to
`twai_transmit` has identifier 0x100, length 8, byte 0 equal to 50, byte 3 equal to
the fault mask computed in that pass, byte 4 equal to 1 if `sensorsEnabled` else 0,
byte 5 equal to 1 if `forcedFault` else 0, and bytes 6 and 7 equal to 0. -/
theorem C3_status_frame_layout (s : ECU) (i : TickInput) :
    (loop s i).2.identifier = 0x100 ∧
    (loop s i).2.data_length_code = 8 ∧
    (loop s i).2.data.length = 8 ∧
    (loop s i).2.byte 0 = 50 ∧
    (loop s i).2.byte 3 = (loop s i).1.faultFlags ∧
    (loop s i).2.byte 4 = (if (loop s i).1.sensorsEnabled = true then 1 else 0) ∧
    (loop s i).2.byte 5 = (if (loop s i).1.forcedFault = true then 1 else 0) ∧
    (loop s i).2.byte 6 = 0 ∧
    (loop s i).2.byte 7 = 0 := by
  have hlt : (loop s i).1.faultFlags < 256 := by rw [loop_fst]; exact faultStep_lt _
  rw [loop_snd]
  generalize (loop s i).1 = x at hlt ⊢
  simp [buildTx, Frame.zero, Frame.byte, boolByte, Nat.mod_eq_of_lt hlt]

/-! ## The receive loop -/

theorem drain_append (s : ECU) (q r : List Frame) :
    drain s (q ++ r) = drain (drain s q) r := by
  simp [drain, List.foldl_append]

theorem drain_snoc (s : ECU) (q : List Frame) (rx : Frame) :
    drain s (q ++ [rx]) = applyFrame (drain s q) rx := by
  simp [drain, List.foldl_append]

theorem lastCommand_snoc (code : Nat) (q : List Frame) (rx : Frame) :
    lastCommand code (q ++ [rx]) =
      if isCommand code rx = true then some (decide (rx.byte 1 ≠ 0)) else lastCommand code q := by
  unfold lastCommand
  by_cases h : isCommand code rx = true
  · simp [List.filter_append, h]
  · simp [List.filter_append, h]

/-- The effect of one message on the globals, in terms of `isCommand`. -/
theorem applyFrame_eq (s : ECU) (rx : Frame) :
    applyFrame s rx =
      { s with
        sensorsEnabled := if isCommand 1 rx = true then decide (rx.byte 1 ≠ 0) else s.sensorsEnabled,
        forcedFault := if isCommand 2 rx = true then decide (rx.byte 1 ≠ 0) else s.forcedFault } := by
  unfold applyFrame isCommand
  by_cases h : rx.identifier = 0x200 ∧ rx.data_length_code ≥ 2
  · by_cases h1 : rx.byte 0 = 1
    · simp [h, h1]
    · by_cases h2 : rx.byte 0 = 2
      · simp [h, h2]
      · simp [h, h1, h2]
  · have h1 : ¬ (rx.identifier = 0x200 ∧ rx.data_length_code ≥ 2 ∧ rx.byte 0 = 1) :=
      fun c => h ⟨c.1, c.2.1⟩
    have h2 : ¬ (rx.identifier = 0x200 ∧ rx.data_length_code ≥ 2 ∧ rx.byte 0 = 2) :=
      fun c => h ⟨c.1, c.2.1⟩
    simp [h, h1, h2]

theorem drain_flags (s : ECU) (q : List Frame) :
    (drain s q).sensorsEnabled = (lastCommand 1 q).getD s.sensorsEnabled ∧
    (drain s q).forcedFault = (lastCommand 2 q).getD s.forcedFault := by
  induction q using List.reverseRecOn with
  | nil => simp [drain, lastCommand]
  | append_singleton q rx ih =>
    rw [drain_snoc, lastCommand_snoc, lastCommand_snoc, applyFrame_eq]
    constructor
    · by_cases h : isCommand 1 rx = true
      · simp [h]
      · simp [h, ih.1]
    · by_cases h : isCommand 2 rx = true
      · simp [h]
      · simp [h, ih.2]

/-! ## The two flags through a pass of `loop` -/

theorem dhtStep_flags (s : ECU) (now : Nat) (t h : Flt) :
    (dhtStep s now t h).sensorsEnabled = s.sensorsEnabled ∧
    (dhtStep s now t h).forcedFault = s.forcedFault := by
  unfold dhtStep
  simp only []
  split_ifs <;> exact ⟨rfl, rfl⟩

theorem ultrasonicStep_flags (s : ECU) (now pulse : Nat) :
    (ultrasonicStep s now pulse).sensorsEnabled = s.sensorsEnabled ∧
    (ultrasonicStep s now pulse).forcedFault = s.forcedFault := by
  unfold ultrasonicStep
  split_ifs <;> exact ⟨rfl, rfl⟩

theorem updateReverseLed_flags (s : ECU) (now : Nat) :
    (updateReverseLed s now).sensorsEnabled = s.sensorsEnabled ∧
    (updateReverseLed s now).forcedFault = s.forcedFault := by
  unfold updateReverseLed toggleIfDue
  split_ifs <;> exact ⟨rfl, rfl⟩

theorem faultStep_keeps_flags (s : ECU) :
    (faultStep s).sensorsEnabled = s.sensorsEnabled ∧
    (faultStep s).forcedFault = s.forcedFault := by
  rw [faultStep_eq]
  exact ⟨rfl, rfl⟩

/-- The two flags after a pass of `loop` are those the receive loop left. -/
theorem loop_flags (s : ECU) (i : TickInput) :
    (loop s i).1.sensorsEnabled = (drain s i.rx).sensorsEnabled ∧
    (loop s i).1.forcedFault = (drain s i.rx).forcedFault := by
  rw [loop_fst]
  constructor
  · rw [(faultStep_keeps_flags _).1, (updateReverseLed_flags _ _).1,
      (ultrasonicStep_flags _ _ _).1, (dhtStep_flags _ _ _ _).1]
  · rw [(faultStep_keeps_flags _).2, (updateReverseLed_flags _ _).2,
      (ultrasonicStep_flags _ _ _).2, (dhtStep_flags _ _ _ _).2]

/-- Bytes 4 and 5 of the message built from the globals. -/
theorem buildTx_flag_bytes (s : ECU) (a b : Nat) :
    (buildTx s a b).byte 4 = boolByte s.sensorsEnabled ∧
    (buildTx s a b).byte 5 = boolByte s.forcedFault := by
  simp [buildTx, Frame.zero, Frame.byte]

theorem loop_flag_bytes (s : ECU) (i : TickInput) :
    (loop s i).2.byte 4 = boolByte (drain s i.rx).sensorsEnabled ∧
    (loop s i).2.byte 5 = boolByte (drain s i.rx).forcedFault := by
  rw [loop_snd, (buildTx_flag_bytes _ _ _).1, (buildTx_flag_bytes _ _ _).2,
    (loop_flags s i).1, (loop_flags s i).2]
  exact ⟨rfl, rfl⟩

/-- C4: for every received message with identifier 0x200 and length at least 2: when
byte 0 is 0x01 the message sets `sensorsEnabled` to (byte 1 nonzero) and changes
nothing else; when byte 0 is 0x02 it sets `forcedFault` to (byte 1 nonzero) and changes
nothing else. The stored flag is a boolean: in a pass of `loop` whose receive queue
ends with the message, status byte 4 (resp. 5) is 1 for every nonzero value byte and
0 for a zero value byte, never the raw byte. -/
theorem C4_command_sets_flag (s : ECU) (rx : Frame) (i : TickInput)
    (hid : rx.identifier = 0x200) (hlen : rx.data_length_code ≥ 2) :
    applyFrame s rx =
      (if rx.byte 0 = 0x01 then { s with sensorsEnabled := decide (rx.byte 1 ≠ 0) }
       else if rx.byte 0 = 0x02 then { s with forcedFault := decide (rx.byte 1 ≠ 0) }
       else s) ∧
    (loop s { i with rx := i.rx ++ [rx] }).2.byte 4 =
      (if rx.byte 0 = 0x01 then (if rx.byte 1 = 0 then 0 else 1) else (loop s i).2.byte 4) ∧
    (loop s { i with rx := i.rx ++ [rx] }).2.byte 5 =
      (if rx.byte 0 = 0x02 then (if rx.byte 1 = 0 then 0 else 1) else (loop s i).2.byte 5) := by
  have key : ∀ t : ECU, applyFrame t rx =
      (if rx.byte 0 = 0x01 then { t with sensorsEnabled := decide (rx.byte 1 ≠ 0) }
       else if rx.byte 0 = 0x02 then { t with forcedFault := decide (rx.byte 1 ≠ 0) }
       else t) := by
    intro t
    unfold applyFrame
    by_cases h1 : rx.byte 0 = 1
    · simp [hid, hlen, h1]
    · by_cases h2 : rx.byte 0 = 2
      · simp [hid, hlen, h2]
      · simp [hid, hlen, h1, h2]
  refine ⟨key s, ?_, ?_⟩
  · rw [(loop_flag_bytes _ _).1, (loop_flag_bytes s i).1]
    show boolByte (drain s (i.rx ++ [rx])).sensorsEnabled = _
    rw [drain_snoc, key]
    by_cases h1 : rx.byte 0 = 1
    · by_cases hv : rx.byte 1 = 0 <;> simp [h1, hv, boolByte]
    · by_cases h2 : rx.byte 0 = 2 <;> simp [h1, h2]
  · rw [(loop_flag_bytes _ _).2, (loop_flag_bytes s i).2]
    show boolByte (drain s (i.rx ++ [rx])).forcedFault = _
    rw [drain_snoc, key]
    by_cases h2 : rx.byte 0 = 2
    · by_cases hv : rx.byte 1 = 0 <;> simp [h2, hv, boolByte]
    · by_cases h1 : rx.byte 0 = 1 <;> simp [h1, h2]

/-- C4 at the command (0x200, [0x01, 0xFF]) received in the startup state. -/
theorem C4_command_sets_flag_witness :
    ((Frame.command 1 255).identifier = 0x200 ∧ (Frame.command 1 255).data_length_code ≥ 2) ∧
    (applyFrame ECU.init (Frame.command 1 255) =
      (if (Frame.command 1 255).byte 0 = 0x01 then
        { ECU.init with sensorsEnabled := decide ((Frame.command 1 255).byte 1 ≠ 0) }
       else if (Frame.command 1 255).byte 0 = 0x02 then
        { ECU.init with forcedFault := decide ((Frame.command 1 255).byte 1 ≠ 0) }
       else ECU.init) ∧
    (loop ECU.init { TickInput.quiet 500 2900 with
        rx := (TickInput.quiet 500 2900).rx ++ [Frame.command 1 255] }).2.byte 4 =
      (if (Frame.command 1 255).byte 0 = 0x01 then
        (if (Frame.command 1 255).byte 1 = 0 then 0 else 1)
       else (loop ECU.init (TickInput.quiet 500 2900)).2.byte 4) ∧
    (loop ECU.init { TickInput.quiet 500 2900 with
        rx := (TickInput.quiet 500 2900).rx ++ [Frame.command 1 255] }).2.byte 5 =
      (if (Frame.command 1 255).byte 0 = 0x02 then
        (if (Frame.command 1 255).byte 1 = 0 then 0 else 1)
       else (loop ECU.init (TickInput.quiet 500 2900)).2.byte 5)) :=
  ⟨⟨by decide, by decide⟩,
    C4_command_sets_flag ECU.init (Frame.command 1 255) (TickInput.quiet 500 2900)
      (by decide) (by decide)⟩

/-- C5: a received message whose identifier is not 0x200, or whose length is less than
2, or whose byte 0 is neither 0x01 nor 0x02, leaves every global unchanged, and the
receive loop goes on with the messages that follow it: draining a queue that contains
the message gives the same globals as draining the queue without it. -/
theorem C5_other_frames_ignored (s : ECU) (rx : Frame) (before after : List Frame)
    (h : rx.identifier ≠ 0x200 ∨ rx.data_length_code < 2 ∨ (rx.byte 0 ≠ 0x01 ∧ rx.byte 0 ≠ 0x02)) :
    applyFrame s rx = s ∧
    drain s (rx :: after) = drain s after ∧
    drain s (before ++ rx :: after) = drain s (before ++ after) := by
  have key : ∀ t : ECU, applyFrame t rx = t := by
    intro t
    unfold applyFrame
    rcases h with h | h | ⟨h1, h2⟩
    · simp [h]
    · have : ¬ rx.data_length_code ≥ 2 := by omega
      simp [this]
    · simp [h1, h2]
  refine ⟨key s, ?_, ?_⟩
  · show drain (applyFrame s rx) after = _
    rw [key]
  · rw [drain_append, drain_append]
    show drain (applyFrame (drain s before) rx) after = _
    rw [key]

/-- C5 at a message with identifier 0x201 between two commands. -/
theorem C5_other_frames_ignored_witness :
    ((⟨0x201, 2, [1, 1, 0, 0, 0, 0, 0, 0]⟩ : Frame).identifier ≠ 0x200 ∨
      (⟨0x201, 2, [1, 1, 0, 0, 0, 0, 0, 0]⟩ : Frame).data_length_code < 2 ∨
      ((⟨0x201, 2, [1, 1, 0, 0, 0, 0, 0, 0]⟩ : Frame).byte 0 ≠ 0x01 ∧
        (⟨0x201, 2, [1, 1, 0, 0, 0, 0, 0, 0]⟩ : Frame).byte 0 ≠ 0x02)) ∧
    (applyFrame ECU.init ⟨0x201, 2, [1, 1, 0, 0, 0, 0, 0, 0]⟩ = ECU.init ∧
    drain ECU.init (⟨0x201, 2, [1, 1, 0, 0, 0, 0, 0, 0]⟩ :: [Frame.command 1 1]) =
      drain ECU.init [Frame.command 1 1] ∧
    drain ECU.init ([Frame.command 2 1] ++ ⟨0x201, 2, [1, 1, 0, 0, 0, 0, 0, 0]⟩ ::
        [Frame.command 1 1]) =
      drain ECU.init ([Frame.command 2 1] ++ [Frame.command 1 1])) :=
  ⟨Or.inl (by decide),
    C5_other_frames_ignored ECU.init ⟨0x201, 2, [1, 1, 0, 0, 0, 0, 0, 0]⟩
      [Frame.command 2 1] [Frame.command 1 1] (Or.inl (by decide))⟩

/-- C6: the queued messages drained in one pass are applied in arrival order (the
drain of a queue is the drain of its tail after applying its head, and the drain of
`q ++ r` is the drain of `r` after the drain of `q`); after the drain `sensorsEnabled`
is the value of the last valid 0x01 command of the queue, or its value before the
drain when there is none, and likewise `forcedFault` with the last valid 0x02 command.
In particular (0x200,[0x01,1]) followed by (0x200,[0x01,0]) leaves `sensorsEnabled`
false. -/
theorem C6_last_writer_wins (s : ECU) (q r : List Frame) (rx : Frame) :
    drain s (rx :: q) = drain (applyFrame s rx) q ∧
    drain s (q ++ r) = drain (drain s q) r ∧
    (drain s q).sensorsEnabled = (lastCommand 0x01 q).getD s.sensorsEnabled ∧
    (drain s q).forcedFault = (lastCommand 0x02 q).getD s.forcedFault ∧
    (drain s [Frame.command 0x01 1, Frame.command 0x01 0]).sensorsEnabled = false :=
  ⟨rfl, drain_append s q r, (drain_flags s q).1, (drain_flags s q).2, by
    rw [(drain_flags s _).1]; rfl⟩

/-! ## The reverse LED -/

/-- The 32-bit subtraction is the difference of the integers modulo `2^32`. -/
theorem sub32_int (a b : Nat) :
    ((sub32 a b : Nat) : Int) = ((a : Int) - (b : Int)) % 4294967296 := by
  unfold sub32
  omega

/-- The Off branch: the line is written LOW and nothing else changes. -/
theorem updateReverseLed_off (s : ECU) (now : Nat)
    (h : s.sensorsEnabled = false ∨ s.distanceCm = 0) :
    updateReverseLed s now = { s with ledPin := false } := by
  unfold updateReverseLed
  rw [if_pos h]

/-- The Solid branch: the line is written HIGH and nothing else changes. -/
theorem updateReverseLed_solid (s : ECU) (now : Nat)
    (hen : s.sensorsEnabled = true) (hd : 30 < s.distanceCm) :
    updateReverseLed s now = { s with ledPin := true } := by
  unfold updateReverseLed
  have h0 : ¬ (s.sensorsEnabled = false ∨ s.distanceCm = 0) := by
    rintro (h | h)
    · rw [hen] at h; exact Bool.noConfusion h
    · omega
  have h1 : ¬ s.distanceCm ≤ 15 := by omega
  have h2 : ¬ s.distanceCm ≤ 30 := by omega
  rw [if_neg h0, if_neg h1, if_neg h2]

/-- The blink tiers: the call is `toggleIfDue` with the interval of the tier. -/
theorem updateReverseLed_blink (s : ECU) (now : Nat)
    (hen : s.sensorsEnabled = true) (hd : 1 ≤ s.distanceCm ∧ s.distanceCm ≤ 30) :
    updateReverseLed s now = toggleIfDue s now (if s.distanceCm ≤ 15 then 100 else 250) := by
  unfold updateReverseLed
  have h0 : ¬ (s.sensorsEnabled = false ∨ s.distanceCm = 0) := by
    rintro (h | h)
    · rw [hen] at h; exact Bool.noConfusion h
    · omega
  rw [if_neg h0]
  by_cases h1 : s.distanceCm ≤ 15
  · rw [if_pos h1, if_pos h1]; rfl
  · rw [if_neg h1, if_neg h1, if_pos hd.2]; rfl

/-- C7: for every state and every clock value, `updateReverseLed` drives the LED line
LOW when `sensorsEnabled` is false and when `distanceCm` is 0 (the Off branch, taken
for distance 0 although 0 <= 15), and drives it HIGH when `sensorsEnabled` is true and
`distanceCm > 30`, whatever `ledState` and `lastLedToggle` are. -/
theorem C7_led_off_and_solid (s : ECU) (now d : Nat) (ls : Bool) (lt : Nat) :
    (updateReverseLed { s with sensorsEnabled := false } now).ledPin = false ∧
    (updateReverseLed { s with distanceCm := 0 } now).ledPin = false ∧
    (updateReverseLed { s with sensorsEnabled := true, distanceCm := 31 + d } now).ledPin = true ∧
    (updateReverseLed { s with sensorsEnabled := false, ledState := ls, lastLedToggle := lt }
      now).ledPin = false ∧
    (updateReverseLed { s with distanceCm := 0, ledState := ls, lastLedToggle := lt }
      now).ledPin = false ∧
    (updateReverseLed
      { s with sensorsEnabled := true, distanceCm := 31 + d, ledState := ls, lastLedToggle := lt }
      now).ledPin = true := by
  refine ⟨?_, ?_, ?_, ?_, ?_, ?_⟩
  · rw [updateReverseLed_off _ _ (Or.inl rfl)]
  · rw [updateReverseLed_off _ _ (Or.inr rfl)]
  · rw [updateReverseLed_solid _ _ rfl (show 30 < 31 + d by omega)]
  · rw [updateReverseLed_off _ _ (Or.inl rfl)]
  · rw [updateReverseLed_off _ _ (Or.inr rfl)]
  · rw [updateReverseLed_solid _ _ rfl (show 30 < 31 + d by omega)]

/-- C8: for every call of `updateReverseLed` with `sensorsEnabled` true at clock value
`now` and `1 <= distanceCm <= 30`, with interval 100 when `distanceCm <= 15` and 250
otherwise: when `(now - lastLedToggle) mod 2^32 >= interval` the call inverts
`ledState`, writes it to the line and sets `lastLedToggle` to `now`; otherwise it
leaves every global and the line unchanged; so `ledState` is inverted and
`lastLedToggle` set to `now` if and only if the interval has elapsed. -/
theorem C8_toggle_iff_interval_elapsed (s : ECU) (now : Nat)
    (hen : s.sensorsEnabled = true) (hd : 1 ≤ s.distanceCm ∧ s.distanceCm ≤ 30) :
    updateReverseLed s now =
      (if ((now : Int) - (s.lastLedToggle : Int)) % 4294967296 ≥
          (if s.distanceCm ≤ 15 then 100 else 250) then
        { s with ledState := !s.ledState, ledPin := !s.ledState, lastLedToggle := now }
       else s) ∧
    (((updateReverseLed s now).ledState = (!s.ledState) ∧
        (updateReverseLed s now).lastLedToggle = now) ↔
      ((now : Int) - (s.lastLedToggle : Int)) % 4294967296 ≥
        (if s.distanceCm ≤ 15 then 100 else 250)) := by
  have hcond : (sub32 now s.lastLedToggle ≥ (if s.distanceCm ≤ 15 then 100 else 250)) ↔
      ((now : Int) - (s.lastLedToggle : Int)) % 4294967296 ≥
        (if s.distanceCm ≤ 15 then 100 else 250) := by
    rw [← sub32_int]
    split_ifs <;> omega
  have heq : updateReverseLed s now =
      (if ((now : Int) - (s.lastLedToggle : Int)) % 4294967296 ≥
          (if s.distanceCm ≤ 15 then 100 else 250) then
        { s with ledState := !s.ledState, ledPin := !s.ledState, lastLedToggle := now }
       else s) := by
    rw [updateReverseLed_blink s now hen hd]
    unfold toggleIfDue
    by_cases hc : sub32 now s.lastLedToggle ≥ (if s.distanceCm ≤ 15 then 100 else 250)
    · rw [if_pos hc, if_pos (hcond.mp hc)]
    · rw [if_neg hc, if_neg (fun h => hc (hcond.mpr h))]
  refine ⟨heq, ?_⟩
  rw [heq]
  by_cases hc : ((now : Int) - (s.lastLedToggle : Int)) % 4294967296 ≥
      (if s.distanceCm ≤ 15 then 100 else 250)
  · rw [if_pos hc]
    exact ⟨fun _ => hc, fun _ => ⟨rfl, rfl⟩⟩
  · rw [if_neg hc]
    constructor
    · intro h
      cases hs : s.ledState <;> rw [hs] at h <;> exact absurd h.1 (by decide)
    · intro h
      exact absurd h hc

/-- C8 at distance 10 with the last toggle 6 ms before the clock rolled over and the
clock at 100: 106 ms have elapsed. -/
theorem C8_toggle_iff_interval_elapsed_witness :
    ((ECU.reversing 10 4294967290 false false).sensorsEnabled = true ∧
      (1 ≤ (ECU.reversing 10 4294967290 false false).distanceCm ∧
        (ECU.reversing 10 4294967290 false false).distanceCm ≤ 30)) ∧
    (updateReverseLed (ECU.reversing 10 4294967290 false false) 100 =
      (if (((100 : Nat) : Int) - ((ECU.reversing 10 4294967290 false false).lastLedToggle : Int))
            % 4294967296 ≥
          (if (ECU.reversing 10 4294967290 false false).distanceCm ≤ 15 then 100 else 250) then
        { ECU.reversing 10 4294967290 false false with
          ledState := !(ECU.reversing 10 4294967290 false false).ledState,
          ledPin := !(ECU.reversing 10 4294967290 false false).ledState,
          lastLedToggle := 100 }
       else ECU.reversing 10 4294967290 false false) ∧
    (((updateReverseLed (ECU.reversing 10 4294967290 false false) 100).ledState =
          (!(ECU.reversing 10 4294967290 false false).ledState) ∧
        (updateReverseLed (ECU.reversing 10 4294967290 false false) 100).lastLedToggle = 100) ↔
      (((100 : Nat) : Int) - ((ECU.reversing 10 4294967290 false false).lastLedToggle : Int))
          % 4294967296 ≥
        (if (ECU.reversing 10 4294967290 false false).distanceCm ≤ 15 then 100 else 250))) :=
  ⟨⟨by decide, by decide, by decide⟩,
    C8_toggle_iff_interval_elapsed (ECU.reversing 10 4294967290 false false) 100
      (by decide) ⟨by decide, by decide⟩⟩

/-- The level of the line does not enter the decisions of `updateReverseLed`. -/
theorem updateReverseLed_pin_irrelevant (s : ECU) (b : Bool) (now : Nat) :
    (updateReverseLed { s with ledPin := b } now).ledState = (updateReverseLed s now).ledState ∧
    (updateReverseLed { s with ledPin := b } now).lastLedToggle =
      (updateReverseLed s now).lastLedToggle := by
  unfold updateReverseLed toggleIfDue
  simp only []
  split_ifs <;> exact ⟨rfl, rfl⟩

/-- C9, as stated, fails. Startup, then a pass at 500 ms that receives (0x200,[0x01,1])
and measures 50 cm (Solid: the line is written HIGH, `ledState` stays false), then a
pass at 1000 ms that measures 10 cm: `updateReverseLed` is called in the fast blink
tier with 1000 ms elapsed since the last toggle, the line is HIGH before the call and
HIGH after it. -/
theorem C9_counterexample :
    (ledCallState (run ECU.init [TickInput.command 500 2900 1 1])
        (TickInput.quiet 1000 580)).sensorsEnabled = true ∧
    (ledCallState (run ECU.init [TickInput.command 500 2900 1 1])
        (TickInput.quiet 1000 580)).distanceCm = 10 ∧
    sub32 (TickInput.quiet 1000 580).ledNow
        (ledCallState (run ECU.init [TickInput.command 500 2900 1 1])
          (TickInput.quiet 1000 580)).lastLedToggle ≥ 100 ∧
    (ledCallState (run ECU.init [TickInput.command 500 2900 1 1])
        (TickInput.quiet 1000 580)).ledPin = true ∧
    (updateReverseLed
        (ledCallState (run ECU.init [TickInput.command 500 2900 1 1]) (TickInput.quiet 1000 580))
        (TickInput.quiet 1000 580).ledNow).ledPin = true ∧
    ¬ ((updateReverseLed
        (ledCallState (run ECU.init [TickInput.command 500 2900 1 1]) (TickInput.quiet 1000 580))
        (TickInput.quiet 1000 580).ledNow).ledPin =
      !(ledCallState (run ECU.init [TickInput.command 500 2900 1 1])
        (TickInput.quiet 1000 580)).ledPin) := by
  decide

/-- C9, amended: in a blink tier (`sensorsEnabled` true and `1 <= distanceCm <= 15` with
interval 100, or `16 <= distanceCm <= 30` with interval 250), every call of
`updateReverseLed` at which the interval has elapsed inverts `ledState` and writes the
new `ledState` to the line, so after the call the line and `ledState` agree; the level
after the call is the opposite of the level before the call exactly when the line
agreed with `ledState` before the call. -/
theorem C9_toggle_writes_inverted_ledState (s : ECU) (now : Nat)
    (hen : s.sensorsEnabled = true) (hd : 1 ≤ s.distanceCm ∧ s.distanceCm ≤ 30)
    (hel : sub32 now s.lastLedToggle ≥ (if s.distanceCm ≤ 15 then 100 else 250)) :
    (updateReverseLed s now).ledState = (!s.ledState) ∧
    (updateReverseLed s now).ledPin = (!s.ledState) ∧
    (updateReverseLed s now).ledPin = (updateReverseLed s now).ledState ∧
    ((updateReverseLed s now).ledPin = (!s.ledPin) ↔ s.ledPin = s.ledState) := by
  rw [updateReverseLed_blink s now hen hd]
  unfold toggleIfDue
  rw [if_pos hel]
  refine ⟨rfl, rfl, rfl, ?_⟩
  show (!s.ledState) = (!s.ledPin) ↔ s.ledPin = s.ledState
  cases s.ledState <;> cases s.ledPin <;> decide

/-- C9 amended, at distance 10 with the line HIGH, `ledState` false and 1000 ms elapsed:
the line is HIGH after the call. -/
theorem C9_toggle_writes_inverted_ledState_witness :
    ((ECU.reversing 10 0 false true).sensorsEnabled = true ∧
      (1 ≤ (ECU.reversing 10 0 false true).distanceCm ∧
        (ECU.reversing 10 0 false true).distanceCm ≤ 30) ∧
      sub32 1000 (ECU.reversing 10 0 false true).lastLedToggle ≥
        (if (ECU.reversing 10 0 false true).distanceCm ≤ 15 then 100 else 250)) ∧
    ((updateReverseLed (ECU.reversing 10 0 false true) 1000).ledState =
        (!(ECU.reversing 10 0 false true).ledState) ∧
    (updateReverseLed (ECU.reversing 10 0 false true) 1000).ledPin =
        (!(ECU.reversing 10 0 false true).ledState) ∧
    (updateReverseLed (ECU.reversing 10 0 false true) 1000).ledPin =
        (updateReverseLed (ECU.reversing 10 0 false true) 1000).ledState ∧
    ((updateReverseLed (ECU.reversing 10 0 false true) 1000).ledPin =
        (!(ECU.reversing 10 0 false true).ledPin) ↔
      (ECU.reversing 10 0 false true).ledPin = (ECU.reversing 10 0 false true).ledState)) :=
  ⟨⟨by decide, ⟨by decide, by decide⟩, by decide⟩,
    C9_toggle_writes_inverted_ledState (ECU.reversing 10 0 false true) 1000
      (by decide) ⟨by decide, by decide⟩ (by decide)⟩

/-- C10: a call of `updateReverseLed` that takes the Off branch (`sensorsEnabled` false
or `distanceCm = 0`) or the Solid branch (`sensorsEnabled` true and `distanceCm > 30`)
leaves `lastLedToggle` and `ledState` unchanged and writes only the line (LOW in Off,
HIGH in Solid). Hence a later call, whatever `sensorsEnabled` and `distanceCm` are by
then, measures the elapsed time from the same `lastLedToggle` and ends with the same
`ledState` and `lastLedToggle` as if the Off or Solid call had not been made. -/
theorem C10_off_solid_keep_timer (s : ECU) (now later : Nat) (se : Bool) (d : Nat)
    (h : (s.sensorsEnabled = false ∨ s.distanceCm = 0) ∨
      (s.sensorsEnabled = true ∧ 30 < s.distanceCm)) :
    (updateReverseLed s now).lastLedToggle = s.lastLedToggle ∧
    (updateReverseLed s now).ledState = s.ledState ∧
    updateReverseLed s now =
      { s with ledPin := decide (s.sensorsEnabled = true ∧ 30 < s.distanceCm) } ∧
    sub32 later (updateReverseLed s now).lastLedToggle = sub32 later s.lastLedToggle ∧
    (updateReverseLed { updateReverseLed s now with sensorsEnabled := se, distanceCm := d }
        later).ledState =
      (updateReverseLed { s with sensorsEnabled := se, distanceCm := d } later).ledState ∧
    (updateReverseLed { updateReverseLed s now with sensorsEnabled := se, distanceCm := d }
        later).lastLedToggle =
      (updateReverseLed { s with sensorsEnabled := se, distanceCm := d } later).lastLedToggle := by
  have heq : updateReverseLed s now =
      { s with ledPin := decide (s.sensorsEnabled = true ∧ 30 < s.distanceCm) } := by
    rcases h with h | ⟨hen, hd⟩
    · rw [updateReverseLed_off s now h]
      have : ¬ (s.sensorsEnabled = true ∧ 30 < s.distanceCm) := by
        rintro ⟨h1, h2⟩
        rcases h with h | h
        · rw [h1] at h; exact Bool.noConfusion h
        · omega
      rw [decide_eq_false this]
    · rw [updateReverseLed_solid s now hen hd, decide_eq_true (And.intro hen hd)]
  refine ⟨by rw [heq], by rw [heq], heq, by rw [heq], ?_, ?_⟩
  · rw [heq]
    exact (updateReverseLed_pin_irrelevant
      { s with sensorsEnabled := se, distanceCm := d } _ later).1
  · rw [heq]
    exact (updateReverseLed_pin_irrelevant
      { s with sensorsEnabled := se, distanceCm := d } _ later).2

/-- C10 at a Solid call (distance 50, last toggle at 900, `ledState` true, clock 1000)
followed by a call at distance 10 and clock 1005. -/
theorem C10_off_solid_keep_timer_witness :
    (((ECU.reversing 50 900 true true).sensorsEnabled = false ∨
        (ECU.reversing 50 900 true true).distanceCm = 0) ∨
      ((ECU.reversing 50 900 true true).sensorsEnabled = true ∧
        30 < (ECU.reversing 50 900 true true).distanceCm)) ∧
    ((updateReverseLed (ECU.reversing 50 900 true true) 1000).lastLedToggle =
        (ECU.reversing 50 900 true true).lastLedToggle ∧
    (updateReverseLed (ECU.reversing 50 900 true true) 1000).ledState =
        (ECU.reversing 50 900 true true).ledState ∧
    updateReverseLed (ECU.reversing 50 900 true true) 1000 =
      { ECU.reversing 50 900 true true with
        ledPin := decide ((ECU.reversing 50 900 true true).sensorsEnabled = true ∧
          30 < (ECU.reversing 50 900 true true).distanceCm) } ∧
    sub32 1005 (updateReverseLed (ECU.reversing 50 900 true true) 1000).lastLedToggle =
      sub32 1005 (ECU.reversing 50 900 true true).lastLedToggle ∧
    (updateReverseLed { updateReverseLed (ECU.reversing 50 900 true true) 1000 with
        sensorsEnabled := true, distanceCm := 10 } 1005).ledState =
      (updateReverseLed { ECU.reversing 50 900 true true with
        sensorsEnabled := true, distanceCm := 10 } 1005).ledState ∧
    (updateReverseLed { updateReverseLed (ECU.reversing 50 900 true true) 1000 with
        sensorsEnabled := true, distanceCm := 10 } 1005).lastLedToggle =
      (updateReverseLed { ECU.reversing 50 900 true true with
        sensorsEnabled := true, distanceCm := 10 } 1005).lastLedToggle) :=
  ⟨Or.inr ⟨by decide, by decide⟩,
    C10_off_solid_keep_timer (ECU.reversing 50 900 true true) 1000 1005 true 10
      (Or.inr ⟨by decide, by decide⟩)⟩

/-! ## What each block of `loop` writes -/

/-- The receive loop writes the two flags and nothing else. -/
theorem drain_eq (s : ECU) (q : List Frame) :
    drain s q = { s with sensorsEnabled := (drain s q).sensorsEnabled,
                         forcedFault := (drain s q).forcedFault } := by
  induction q generalizing s with
  | nil => rfl
  | cons rx q ih =>
    have h := ih (applyFrame s rx)
    show drain (applyFrame s rx) q = { s with
      sensorsEnabled := (drain (applyFrame s rx) q).sensorsEnabled,
      forcedFault := (drain (applyFrame s rx) q).forcedFault }
    generalize drain (applyFrame s rx) q = x at h ⊢
    rw [h, applyFrame_eq]

/-- The DHT block writes `temperature`, `humidity` and `lastDhtRead` only, and the
readings are committed together or not at all. -/
theorem dhtStep_eq (s : ECU) (now : Nat) (t h : Flt) :
    dhtStep s now t h =
      { s with
        temperature := if sub32 now s.lastDhtRead ≥ 500 ∧ t.isnan = false ∧ h.isnan = false
          then t else s.temperature,
        humidity := if sub32 now s.lastDhtRead ≥ 500 ∧ t.isnan = false ∧ h.isnan = false
          then h else s.humidity,
        lastDhtRead := if sub32 now s.lastDhtRead ≥ 500 then now else s.lastDhtRead } := by
  unfold dhtStep SENSOR_INTERVAL_MS
  by_cases hd : sub32 now s.lastDhtRead ≥ 500
  · by_cases hv : t.isnan = false ∧ h.isnan = false
    · simp [hd, hv]
    · simp only [hd, hv, if_true, if_false, true_and]
  · simp only [hd, if_false, false_and]

/-- The ultrasonic block writes `distanceCm` and `lastUltrasonicRead` only. -/
theorem ultrasonicStep_eq (s : ECU) (now pulse : Nat) :
    ultrasonicStep s now pulse =
      { s with
        distanceCm := if s.sensorsEnabled = true ∧ sub32 now s.lastUltrasonicRead ≥ 500
          then readDistance pulse else s.distanceCm,
        lastUltrasonicRead := if s.sensorsEnabled = true ∧ sub32 now s.lastUltrasonicRead ≥ 500
          then now else s.lastUltrasonicRead } := by
  unfold ultrasonicStep SENSOR_INTERVAL_MS
  by_cases hd : s.sensorsEnabled = true ∧ sub32 now s.lastUltrasonicRead ≥ 500
  · simp only [hd, if_true, and_self]
  · simp only [hd, if_false]

/-- The LED function writes `ledState`, `ledPin` and `lastLedToggle` only. -/
theorem updateReverseLed_eq (s : ECU) (now : Nat) :
    updateReverseLed s now =
      { s with ledState := (updateReverseLed s now).ledState,
               ledPin := (updateReverseLed s now).ledPin,
               lastLedToggle := (updateReverseLed s now).lastLedToggle } := by
  unfold updateReverseLed toggleIfDue
  split_ifs <;> rfl

/-- The ambient readings stored after a pass of `loop`. -/
theorem loop_ambient (s : ECU) (i : TickInput) :
    (loop s i).1.temperature =
      (if sub32 i.now s.lastDhtRead ≥ 500 ∧ i.dhtT.isnan = false ∧ i.dhtH.isnan = false
        then i.dhtT else s.temperature) ∧
    (loop s i).1.humidity =
      (if sub32 i.now s.lastDhtRead ≥ 500 ∧ i.dhtT.isnan = false ∧ i.dhtH.isnan = false
        then i.dhtH else s.humidity) := by
  rw [loop_fst, faultStep_eq, updateReverseLed_eq, ultrasonicStep_eq, dhtStep_eq, drain_eq]
  exact ⟨rfl, rfl⟩

/-- C11: after a pass of `loop` the stored temperature and humidity are both replaced
by the readings when the ambient sampler is due (500 ms elapsed) and neither reading is
NaN, and both keep their values from before the pass otherwise: when the sampler is
due and the temperature reading or the humidity reading is NaN nothing is committed,
and when the sampler is not due nothing is read. -/
theorem C11_ambient_all_or_nothing (s : ECU) (i : TickInput) :
    (loop s i).1.temperature =
      (if sub32 i.now s.lastDhtRead ≥ 500 ∧ i.dhtT.isnan = false ∧ i.dhtH.isnan = false
        then i.dhtT else s.temperature) ∧
    (loop s i).1.humidity =
      (if sub32 i.now s.lastDhtRead ≥ 500 ∧ i.dhtT.isnan = false ∧ i.dhtH.isnan = false
        then i.dhtH else s.humidity) ∧
    (loop s { i with dhtT := Flt.nan }).1.temperature = s.temperature ∧
    (loop s { i with dhtT := Flt.nan }).1.humidity = s.humidity ∧
    (loop s { i with dhtH := Flt.nan }).1.temperature = s.temperature ∧
    (loop s { i with dhtH := Flt.nan }).1.humidity = s.humidity := by
  refine ⟨(loop_ambient s i).1, (loop_ambient s i).2, ?_, ?_, ?_, ?_⟩
  · rw [(loop_ambient s _).1]; simp [Flt.isnan]
  · rw [(loop_ambient s _).2]; simp [Flt.isnan]
  · rw [(loop_ambient s _).1]; simp [Flt.isnan]
  · rw [(loop_ambient s _).2]; simp [Flt.isnan]

/-- The proximity reading and its timer after a pass of `loop`. -/
theorem loop_distance (s : ECU) (i : TickInput) :
    (loop s i).1.distanceCm =
      (if (drain s i.rx).sensorsEnabled = true ∧ sub32 i.now s.lastUltrasonicRead ≥ 500
        then readDistance i.pulse else s.distanceCm) ∧
    (loop s i).1.lastUltrasonicRead =
      (if (drain s i.rx).sensorsEnabled = true ∧ sub32 i.now s.lastUltrasonicRead ≥ 500
        then i.now else s.lastUltrasonicRead) := by
  rw [loop_fst, faultStep_eq, updateReverseLed_eq, ultrasonicStep_eq, dhtStep_eq, drain_eq]
  exact ⟨rfl, rfl⟩

/-- With the sensors disabled the ultrasonic block does nothing. -/
theorem ultrasonicStep_disabled (s : ECU) (now pulse : Nat) (h : s.sensorsEnabled = false) :
    ultrasonicStep s now pulse = s := by
  unfold ultrasonicStep
  have hc : ¬ (s.sensorsEnabled = true ∧ sub32 now s.lastUltrasonicRead ≥ SENSOR_INTERVAL_MS) := by
    rintro ⟨h1, _⟩
    rw [h] at h1
    exact Bool.noConfusion h1
  rw [if_neg hc]

/-- C12: in a pass of `loop` in which `sensorsEnabled` is false after the receive loop,
the result of the pass does not depend on the echo pulse (the proximity sensor is not
read), and `distanceCm` and `lastUltrasonicRead` after the pass equal their values
before it, whatever the clock says. The stored distance therefore survives: after a
following pass `j` it is a fresh sample when that pass has the sensors enabled and
500 ms have elapsed on the unchanged timer, and the old distance otherwise. -/
theorem C12_disabled_keeps_distance (s : ECU) (i j : TickInput) (p : Nat)
    (h : (drain s i.rx).sensorsEnabled = false) :
    (loop s i).1.distanceCm = s.distanceCm ∧
    (loop s i).1.lastUltrasonicRead = s.lastUltrasonicRead ∧
    loop s { i with pulse := p } = loop s i ∧
    (loop (loop s i).1 j).1.distanceCm =
      (if (drain (loop s i).1 j.rx).sensorsEnabled = true ∧
          sub32 j.now s.lastUltrasonicRead ≥ 500
        then readDistance j.pulse else s.distanceCm) := by
  have hc : ¬ ((drain s i.rx).sensorsEnabled = true ∧
      sub32 i.now s.lastUltrasonicRead ≥ 500) := by
    rintro ⟨h1, _⟩
    rw [h] at h1
    exact Bool.noConfusion h1
  have hd : (loop s i).1.distanceCm = s.distanceCm := by
    rw [(loop_distance s i).1, if_neg hc]
  have ht : (loop s i).1.lastUltrasonicRead = s.lastUltrasonicRead := by
    rw [(loop_distance s i).2, if_neg hc]
  refine ⟨hd, ht, ?_, ?_⟩
  · have hen : (dhtStep (drain s i.rx) i.now i.dhtT i.dhtH).sensorsEnabled = false := by
      rw [(dhtStep_flags _ _ _ _).1, h]
    show (faultStep (updateReverseLed (ultrasonicStep
        (dhtStep (drain s i.rx) i.now i.dhtT i.dhtH) i.now p) i.ledNow), _) =
      (faultStep (updateReverseLed (ultrasonicStep
        (dhtStep (drain s i.rx) i.now i.dhtT i.dhtH) i.now i.pulse) i.ledNow), _)
    simp only [loop, ultrasonicStep_disabled _ _ _ hen]
  · rw [(loop_distance (loop s i).1 j).1, hd, ht]

/-- C12 at a pass that receives the disable command after 50 cm had been stored. -/
theorem C12_disabled_keeps_distance_witness :
    (drain (ECU.reversing 50 0 false true) (TickInput.command 5000 580 1 0).rx).sensorsEnabled
      = false ∧
    ((loop (ECU.reversing 50 0 false true) (TickInput.command 5000 580 1 0)).1.distanceCm =
      (ECU.reversing 50 0 false true).distanceCm ∧
    (loop (ECU.reversing 50 0 false true) (TickInput.command 5000 580 1 0)).1.lastUltrasonicRead =
      (ECU.reversing 50 0 false true).lastUltrasonicRead ∧
    loop (ECU.reversing 50 0 false true) { TickInput.command 5000 580 1 0 with pulse := 1160 } =
      loop (ECU.reversing 50 0 false true) (TickInput.command 5000 580 1 0) ∧
    (loop (loop (ECU.reversing 50 0 false true) (TickInput.command 5000 580 1 0)).1
        (TickInput.command 5010 1160 1 1)).1.distanceCm =
      (if (drain (loop (ECU.reversing 50 0 false true) (TickInput.command 5000 580 1 0)).1
            (TickInput.command 5010 1160 1 1).rx).sensorsEnabled = true ∧
          sub32 (TickInput.command 5010 1160 1 1).now
            (ECU.reversing 50 0 false true).lastUltrasonicRead ≥ 500
        then readDistance (TickInput.command 5010 1160 1 1).pulse
        else (ECU.reversing 50 0 false true).distanceCm)) :=
  ⟨by decide,
    C12_disabled_keeps_distance (ECU.reversing 50 0 false true) (TickInput.command 5000 580 1 0)
      (TickInput.command 5010 1160 1 1) 1160 (by decide)⟩

/-! ## Scenario A -/

/-- C13, as stated, fails: a pass of `loop` from the startup globals at clock value 0
with an empty receive queue builds the message [50, 0, 0, 0, 0, 0, 0, 0]; the startup
temperature 0 is not NaN and bit 0 of the fault byte is clear. -/
theorem C13_counterexample :
    ECU.init.temperature.isnan = false ∧
    (loop ECU.init (TickInput.quiet 0 0)).2.data = [50, 0, 0, 0, 0, 0, 0, 0] ∧
    ((loop ECU.init (TickInput.quiet 0 0)).2.byte 3).testBit 0 = false := by
  decide

/-- C13, amended: a pass of `loop` run from the startup globals with no inbound message
and no sampler refresh (fewer than 500 ms on the clock) leaves the globals as they
were and builds the message with identifier 0x100, length 8 and bytes
[50, 0, 0, 0, 0, 0, 0, 0]: the fault byte is 0, bit 0 included, since the startup
temperature 0 is a valid reading. -/
theorem C13_startup_frame (i : TickInput) (hrx : i.rx = [])
    (hnow : sub32 i.now ECU.init.lastDhtRead < SENSOR_INTERVAL_MS) :
    (loop ECU.init i).1 = ECU.init ∧
    (loop ECU.init i).2 = ⟨0x100, 8, [50, 0, 0, 0, 0, 0, 0, 0]⟩ ∧
    (loop ECU.init i).2.byte 3 = 0 ∧
    ((loop ECU.init i).2.byte 3).testBit 0 = false := by
  have h1 : dhtStep ECU.init i.now i.dhtT i.dhtH = ECU.init := by
    unfold dhtStep
    rw [if_neg (by omega)]
  have h2 : (loop ECU.init i).1 = ECU.init := by
    rw [loop_fst, hrx]
    show faultStep (updateReverseLed (ultrasonicStep (dhtStep ECU.init i.now i.dhtT i.dhtH)
      i.now i.pulse) i.ledNow) = ECU.init
    rw [h1, ultrasonicStep_disabled _ _ _ rfl, updateReverseLed_off _ _ (Or.inl rfl)]
    rfl
  have h3 : (loop ECU.init i).2 = ⟨0x100, 8, [50, 0, 0, 0, 0, 0, 0, 0]⟩ := by
    rw [loop_snd, h2]
    rfl
  refine ⟨h2, h3, ?_, ?_⟩
  · rw [h3]; rfl
  · rw [h3]; rfl

/-- C13 amended, at a pass 10 ms after startup. -/
theorem C13_startup_frame_witness :
    ((TickInput.quiet 10 0).rx = [] ∧
      sub32 (TickInput.quiet 10 0).now ECU.init.lastDhtRead < SENSOR_INTERVAL_MS) ∧
    ((loop ECU.init (TickInput.quiet 10 0)).1 = ECU.init ∧
    (loop ECU.init (TickInput.quiet 10 0)).2 = ⟨0x100, 8, [50, 0, 0, 0, 0, 0, 0, 0]⟩ ∧
    (loop ECU.init (TickInput.quiet 10 0)).2.byte 3 = 0 ∧
    ((loop ECU.init (TickInput.quiet 10 0)).2.byte 3).testBit 0 = false) :=
  ⟨⟨by decide, by decide⟩, C13_startup_frame (TickInput.quiet 10 0) (by decide) (by decide)⟩

/-! ## Scenario C -/

/-- Byte 3 of the message sent is the fault mask of the pass. -/
theorem loop_byte3 (s : ECU) (i : TickInput) :
    (loop s i).2.byte 3 = (loop s i).1.faultFlags := by
  have hlt : (loop s i).1.faultFlags < 256 := by rw [loop_fst]; exact faultStep_lt _
  rw [loop_snd]
  generalize (loop s i).1 = x at hlt ⊢
  simp [buildTx, Frame.zero, Frame.byte, Nat.mod_eq_of_lt hlt]

/-- Bit 7 of the fault byte sent is `forcedFault` as the receive loop left it. -/
theorem loop_bit7 (s : ECU) (i : TickInput) :
    ((loop s i).2.byte 3).testBit 7 = (lastCommand 0x02 i.rx).getD s.forcedFault := by
  rw [loop_byte3, ← (drain_flags s i.rx).2, ← (loop_flags s i).2, loop_fst, faultStep_bit7,
    (faultStep_keeps_flags _).2]

/-- After a pass of `loop`, `forcedFault` is the value of the last 0x02 command drained,
or its old value. -/
theorem loop_forcedFault (s : ECU) (i : TickInput) :
    (loop s i).1.forcedFault = (lastCommand 0x02 i.rx).getD s.forcedFault := by
  rw [(loop_flags s i).2, (drain_flags s i.rx).2]

theorem run_cons (s : ECU) (i : TickInput) (is : List TickInput) :
    run s (i :: is) = run (loop s i).1 is := rfl

/-- Passes that drain no 0x02 command leave `forcedFault` as it was. -/
theorem run_forcedFault (s : ECU) (is : List TickInput)
    (h : is.all (fun k => (lastCommand 0x02 k.rx).isNone) = true) :
    (run s is).forcedFault = s.forcedFault := by
  induction is generalizing s with
  | nil => rfl
  | cons k is ih =>
    rw [List.all_cons, Bool.and_eq_true] at h
    rw [run_cons, ih _ h.2, loop_forcedFault]
    cases hk : lastCommand 0x02 k.rx with
    | none => rfl
    | some b => rw [hk] at h; exact absurd h.1 (by simp)

/-- C14: for every state and every sensor input, when the last valid 0x02 command a
pass of `loop` drains carries the value `v` (true for (0x200,[0x02,0x01]), false for
(0x200,[0x02,0x00])), bit 7 of byte 3 of the message sent in that pass is `v`, and it
is `v` again in every later pass `j` reached through passes that drain no 0x02
command: set after a set command, clear after a clear command, in the same pass and
in the following ones. -/
theorem C14_forced_fault_bit (s : ECU) (i j : TickInput) (later : List TickInput) (v : Bool)
    (q : List Frame)
    (hi : lastCommand 0x02 i.rx = some v)
    (hl : later.all (fun k => (lastCommand 0x02 k.rx).isNone) = true)
    (hj : lastCommand 0x02 j.rx = none) :
    ((loop s i).2.byte 3).testBit 7 = v ∧
    ((loop (run (loop s i).1 later) j).2.byte 3).testBit 7 = v ∧
    lastCommand 0x02 (q ++ [Frame.command 0x02 0x01]) = some true ∧
    lastCommand 0x02 (q ++ [Frame.command 0x02 0x00]) = some false := by
  refine ⟨?_, ?_, ?_, ?_⟩
  · rw [loop_bit7, hi]; rfl
  · rw [loop_bit7, hj, run_forcedFault _ _ hl, loop_forcedFault, hi]; rfl
  · rw [lastCommand_snoc]; rfl
  · rw [lastCommand_snoc]; rfl

/-- C14 at the set command received at startup, followed by a quiet pass and a pass
that receives a 0x01 command, then a quiet pass. -/
theorem C14_forced_fault_bit_witness :
    (lastCommand 0x02 (TickInput.command 500 0 2 1).rx = some true ∧
      [TickInput.quiet 510 0, TickInput.command 520 0 1 1].all
        (fun k => (lastCommand 0x02 k.rx).isNone) = true ∧
      lastCommand 0x02 (TickInput.quiet 530 0).rx = none) ∧
    (((loop ECU.init (TickInput.command 500 0 2 1)).2.byte 3).testBit 7 = true ∧
    ((loop (run (loop ECU.init (TickInput.command 500 0 2 1)).1
        [TickInput.quiet 510 0, TickInput.command 520 0 1 1])
      (TickInput.quiet 530 0)).2.byte 3).testBit 7 = true ∧
    lastCommand 0x02 ([Frame.command 1 1] ++ [Frame.command 0x02 0x01]) = some true ∧
    lastCommand 0x02 ([Frame.command 1 1] ++ [Frame.command 0x02 0x00]) = some false) :=
  ⟨⟨by decide, by decide, by decide⟩,
    C14_forced_fault_bit ECU.init (TickInput.command 500 0 2 1) (TickInput.quiet 530 0)
      [TickInput.quiet 510 0, TickInput.command 520 0 1 1] true [Frame.command 1 1]
      (by decide) (by decide) (by decide)⟩

/-! ## Clock rollover -/

/-- The 32-bit difference recovers the elapsed time, whatever the starting point. -/
theorem sub32_elapsed (last e : Nat) (he : e < 4294967296) :
    sub32 ((last + e) % 4294967296) last = e := by
  unfold sub32
  omega

/-- C15: the elapsed-time check `now - last >= interval` in unsigned 32-bit arithmetic
is right across clock rollover: for every `last`, every true elapsed time `e` below
`2^32` and `now = (last + e) mod 2^32`, the difference `(now - last) mod 2^32` is `e`,
so the check holds exactly when `e >= interval`, also when `now < last`. For the three
timers: the DHT block restarts its timer exactly when `e >= 500`, the ultrasonic block
(sensors enabled) exactly when `e >= 500`, and the LED toggle fires exactly when
`e >= 100` (fast tier) or `e >= 250` (normal tier). -/
theorem C15_elapsed_check_across_rollover (s : ECU) (last e interval pulse : Nat) (t h : Flt)
    (he : e < 4294967296) :
    sub32 ((last + e) % 4294967296) last = e ∧
    (sub32 ((last + e) % 4294967296) last ≥ interval ↔ e ≥ interval) ∧
    (dhtStep s ((s.lastDhtRead + e) % 4294967296) t h).lastDhtRead =
      (if e ≥ 500 then (s.lastDhtRead + e) % 4294967296 else s.lastDhtRead) ∧
    (ultrasonicStep { s with sensorsEnabled := true }
        ((s.lastUltrasonicRead + e) % 4294967296) pulse).lastUltrasonicRead =
      (if e ≥ 500 then (s.lastUltrasonicRead + e) % 4294967296 else s.lastUltrasonicRead) ∧
    toggleIfDue s ((s.lastLedToggle + e) % 4294967296) LED_BLINK_FAST_MS =
      (if e ≥ 100 then
        { s with ledState := !s.ledState, ledPin := !s.ledState,
                 lastLedToggle := (s.lastLedToggle + e) % 4294967296 }
       else s) ∧
    toggleIfDue s ((s.lastLedToggle + e) % 4294967296) LED_BLINK_NORMAL_MS =
      (if e ≥ 250 then
        { s with ledState := !s.ledState, ledPin := !s.ledState,
                 lastLedToggle := (s.lastLedToggle + e) % 4294967296 }
       else s) := by
  refine ⟨sub32_elapsed last e he, by rw [sub32_elapsed last e he], ?_, ?_, ?_, ?_⟩
  · rw [dhtStep_eq, sub32_elapsed _ e he]
  · rw [ultrasonicStep_eq]
    show (if true = true ∧ sub32 ((s.lastUltrasonicRead + e) % 4294967296)
        s.lastUltrasonicRead ≥ 500 then _ else _) = _
    rw [sub32_elapsed _ e he]
    simp only [true_and]
  · unfold toggleIfDue LED_BLINK_FAST_MS
    rw [sub32_elapsed _ e he]
  · unfold toggleIfDue LED_BLINK_NORMAL_MS
    rw [sub32_elapsed _ e he]

/-- C15 with the last sample taken 296 ms before the clock rolls over and 500 ms
elapsed: the clock reads 204, which is below `last`. -/
theorem C15_elapsed_check_across_rollover_witness :
    ((500 : Nat) < 4294967296 ∧ (4294967000 + 500) % 4294967296 < 4294967000) ∧
    (sub32 ((4294967000 + 500) % 4294967296) 4294967000 = 500 ∧
    (sub32 ((4294967000 + 500) % 4294967296) 4294967000 ≥ 500 ↔ 500 ≥ 500) ∧
    (dhtStep (ECU.reversing 10 4294967000 false false)
        (((ECU.reversing 10 4294967000 false false).lastDhtRead + 500) % 4294967296)
        (Flt.fin 25) (Flt.fin 40)).lastDhtRead =
      (if 500 ≥ 500 then
        ((ECU.reversing 10 4294967000 false false).lastDhtRead + 500) % 4294967296
       else (ECU.reversing 10 4294967000 false false).lastDhtRead) ∧
    (ultrasonicStep { ECU.reversing 10 4294967000 false false with sensorsEnabled := true }
        (((ECU.reversing 10 4294967000 false false).lastUltrasonicRead + 500) % 4294967296)
        580).lastUltrasonicRead =
      (if 500 ≥ 500 then
        ((ECU.reversing 10 4294967000 false false).lastUltrasonicRead + 500) % 4294967296
       else (ECU.reversing 10 4294967000 false false).lastUltrasonicRead) ∧
    toggleIfDue (ECU.reversing 10 4294967000 false false)
        (((ECU.reversing 10 4294967000 false false).lastLedToggle + 500) % 4294967296)
        LED_BLINK_FAST_MS =
      (if 500 ≥ 100 then
        { ECU.reversing 10 4294967000 false false with
          ledState := !(ECU.reversing 10 4294967000 false false).ledState,
          ledPin := !(ECU.reversing 10 4294967000 false false).ledState,
          lastLedToggle :=
            ((ECU.reversing 10 4294967000 false false).lastLedToggle + 500) % 4294967296 }
       else ECU.reversing 10 4294967000 false false) ∧
    toggleIfDue (ECU.reversing 10 4294967000 false false)
        (((ECU.reversing 10 4294967000 false false).lastLedToggle + 500) % 4294967296)
        LED_BLINK_NORMAL_MS =
      (if 500 ≥ 250 then
        { ECU.reversing 10 4294967000 false false with
          ledState := !(ECU.reversing 10 4294967000 false false).ledState,
          ledPin := !(ECU.reversing 10 4294967000 false false).ledState,
          lastLedToggle :=
            ((ECU.reversing 10 4294967000 false false).lastLedToggle + 500) % 4294967296 }
       else ECU.reversing 10 4294967000 false false)) :=
  ⟨⟨by decide, by decide⟩,
    C15_elapsed_check_across_rollover (ECU.reversing 10 4294967000 false false) 4294967000 500
      500 580 (Flt.fin 25) (Flt.fin 40) (by decide)⟩

/-! ## The fault mask is rebuilt in every pass -/

/-- Bits 4 to 6 of a mask assembled from the five conditions are clear. -/
theorem mask_unused (a b c d e : Bool) :
    ((if a = true then 1 else 0) + (if b = true then 2 else 0) +
      (if c = true then 4 else 0) + (if d = true then 8 else 0) +
      (if e = true then 128 else 0)) &&& 0x70 = 0 := by
  revert a b c d e
  decide

theorem faultStep_unused (s : ECU) : (faultStep s).faultFlags &&& 0x70 = 0 := by
  rw [faultStep_flags]
  exact mask_unused _ _ _ _ _

/-- The fault block does not read the previous mask. -/
theorem faultStep_forgets (s : ECU) (ff : Nat) :
    faultStep { s with faultFlags := ff } = faultStep s := rfl

theorem applyFrame_setFlags (s : ECU) (rx : Frame) (ff : Nat) :
    applyFrame { s with faultFlags := ff } rx = { applyFrame s rx with faultFlags := ff } := by
  unfold applyFrame
  simp only []
  split_ifs <;> rfl

theorem drain_setFlags (s : ECU) (q : List Frame) (ff : Nat) :
    drain { s with faultFlags := ff } q = { drain s q with faultFlags := ff } := by
  induction q generalizing s with
  | nil => rfl
  | cons rx q ih =>
    show drain (applyFrame { s with faultFlags := ff } rx) q = _
    rw [applyFrame_setFlags, ih]
    rfl

theorem dhtStep_setFlags (s : ECU) (now : Nat) (t h : Flt) (ff : Nat) :
    dhtStep { s with faultFlags := ff } now t h = { dhtStep s now t h with faultFlags := ff } := by
  unfold dhtStep
  simp only []
  split_ifs <;> rfl

theorem ultrasonicStep_setFlags (s : ECU) (now pulse ff : Nat) :
    ultrasonicStep { s with faultFlags := ff } now pulse =
      { ultrasonicStep s now pulse with faultFlags := ff } := by
  unfold ultrasonicStep
  simp only []
  split_ifs <;> rfl

theorem updateReverseLed_setFlags (s : ECU) (now ff : Nat) :
    updateReverseLed { s with faultFlags := ff } now =
      { updateReverseLed s now with faultFlags := ff } := by
  unfold updateReverseLed toggleIfDue
  simp only []
  split_ifs <;> rfl

/-- A pass of `loop` does not read the mask of the pass before. -/
theorem loop_forgets (s : ECU) (i : TickInput) (ff : Nat) :
    loop { s with faultFlags := ff } i = loop s i := by
  have h : (loop { s with faultFlags := ff } i).1 = (loop s i).1 := by
    rw [loop_fst, loop_fst, drain_setFlags, dhtStep_setFlags, ultrasonicStep_setFlags,
      updateReverseLed_setFlags, faultStep_forgets]
  have h2 : (loop { s with faultFlags := ff } i).2 = (loop s i).2 := by
    rw [loop_snd, loop_snd, h]
  exact Prod.ext h h2

/-- C16: for every ECU state, bits 4, 5 and 6 of the fault mask computed by a pass are
0 (mask AND 0x70 = 0), in the globals and in byte 3 of the message sent, whatever the
previous value of `faultFlags` was: the fault block and the whole pass give the same
result from any previous mask, so no bit is latched from an earlier pass. -/
theorem C16_unused_bits_and_no_latch (s : ECU) (i : TickInput) (ff : Nat) :
    (faultStep s).faultFlags &&& 0x70 = 0 ∧
    (faultStep s).faultFlags.testBit 4 = false ∧
    (faultStep s).faultFlags.testBit 5 = false ∧
    (faultStep s).faultFlags.testBit 6 = false ∧
    faultStep { s with faultFlags := ff } = faultStep s ∧
    (loop s i).1.faultFlags &&& 0x70 = 0 ∧
    (loop s i).2.byte 3 &&& 0x70 = 0 ∧
    loop { s with faultFlags := ff } i = loop s i := by
  refine ⟨faultStep_unused s, ?_, ?_, ?_, faultStep_forgets s ff, ?_, ?_, loop_forgets s i ff⟩
  · rw [faultStep_flags]; exact (mask_bits _ _ _ _ _).2.2.2.2.1
  · rw [faultStep_flags]; exact (mask_bits _ _ _ _ _).2.2.2.2.2.1
  · rw [faultStep_flags]; exact (mask_bits _ _ _ _ _).2.2.2.2.2.2.1
  · rw [loop_fst]; exact faultStep_unused _
  · rw [loop_byte3, loop_fst]; exact faultStep_unused _

/-! ## The order of the LED step and the fault step -/

/-- The LED function leaves the inputs of the fault block alone. -/
theorem faultStep_flags_led (x : ECU) (now : Nat) :
    (faultStep (updateReverseLed x now)).faultFlags = (faultStep x).faultFlags := by
  rw [faultStep_flags, faultStep_flags, updateReverseLed_eq]

/-- The LED function and the fault block commute. -/
theorem updateReverseLed_faultStep (x : ECU) (now : Nat) :
    updateReverseLed (faultStep x) now = faultStep (updateReverseLed x now) := by
  calc updateReverseLed (faultStep x) now
      = updateReverseLed { x with faultFlags := (faultStep x).faultFlags } now :=
        congrArg (fun y => updateReverseLed y now) (faultStep_eq x)
    _ = { updateReverseLed x now with faultFlags := (faultStep x).faultFlags } :=
        updateReverseLed_setFlags x now _
    _ = { updateReverseLed x now with
          faultFlags := (faultStep (updateReverseLed x now)).faultFlags } := by
        rw [faultStep_flags_led]
    _ = faultStep (updateReverseLed x now) := (faultStep_eq _).symm

/-- C17: the pass implemented by `loop` (which advances the LED before it recomputes
the fault flags) equals the composition of the steps in the order of the specification
(drain, samplers, fault flags, LED, status message): for every state and every input
the globals, with the blink state and the level of the LED line among them, and the
outbound message are the same. -/
theorem C17_loop_refines_spec_order (s : ECU) (i : TickInput) :
    loopSpecOrder s i = loop s i ∧
    (loopSpecOrder s i).1.ledState = (loop s i).1.ledState ∧
    (loopSpecOrder s i).1.ledPin = (loop s i).1.ledPin ∧
    (loopSpecOrder s i).1.faultFlags = (loop s i).1.faultFlags ∧
    (loopSpecOrder s i).2 = (loop s i).2 := by
  have h : loopSpecOrder s i = loop s i := by
    unfold loopSpecOrder loop
    simp only [updateReverseLed_faultStep]
  refine ⟨h, ?_, ?_, ?_, ?_⟩ <;> rw [h]

/-! ## The stored readings are never NaN -/

/-- Bit 0 of the fault byte sent is the NaN test on the stored temperature. -/
theorem loop_bit0 (s : ECU) (i : TickInput) :
    ((loop s i).2.byte 3).testBit 0 = (loop s i).1.temperature.isnan := by
  rw [loop_byte3, loop_fst]
  generalize updateReverseLed _ _ = x
  rw [faultStep_flags, faultStep_eq x]
  exact (mask_bits _ _ _ _ _).1

/-- A pass of `loop` keeps the stored readings free of NaN. -/
theorem loop_keeps_valid (s : ECU) (i : TickInput)
    (h : s.temperature.isnan = false ∧ s.humidity.isnan = false) :
    (loop s i).1.temperature.isnan = false ∧ (loop s i).1.humidity.isnan = false := by
  rw [(loop_ambient s i).1, (loop_ambient s i).2]
  by_cases hc : sub32 i.now s.lastDhtRead ≥ 500 ∧ i.dhtT.isnan = false ∧ i.dhtH.isnan = false
  · rw [if_pos hc, if_pos hc]
    exact hc.2
  · rw [if_neg hc, if_neg hc]
    exact h

theorem run_keeps_valid (s : ECU) (is : List TickInput)
    (h : s.temperature.isnan = false ∧ s.humidity.isnan = false) :
    (run s is).temperature.isnan = false ∧ (run s is).humidity.isnan = false := by
  induction is generalizing s with
  | nil => exact h
  | cons k is ih =>
    rw [run_cons]
    exact ih _ (loop_keeps_valid s k h)

/-- C18: in every state reached from the startup globals by any sequence of passes of
`loop`, with any inbound messages and any readings, NaN included, the stored
temperature and humidity are not NaN; so bit 0 of the fault byte is clear in the
message sent by every pass. -/
theorem C18_stored_readings_never_nan (is : List TickInput) (i : TickInput) :
    (run ECU.init is).temperature.isnan = false ∧
    (run ECU.init is).humidity.isnan = false ∧
    (loop (run ECU.init is) i).1.temperature.isnan = false ∧
    (loop (run ECU.init is) i).1.faultFlags.testBit 0 = false ∧
    ((loop (run ECU.init is) i).2.byte 3).testBit 0 = false := by
  have h0 : ECU.init.temperature.isnan = false ∧ ECU.init.humidity.isnan = false := ⟨rfl, rfl⟩
  have h := run_keeps_valid ECU.init is h0
  have h1 := (loop_keeps_valid (run ECU.init is) i h).1
  have h2 : ((loop (run ECU.init is) i).2.byte 3).testBit 0 = false := by
    rw [loop_bit0, h1]
  refine ⟨h.1, h.2, h1, ?_, h2⟩
  rw [← loop_byte3]
  exact h2

/-! ## No echo implies proximity -/

/-- C19: for every ECU state, if bit 1 (no echo) of the mask computed by the fault
block is set, then `distanceCm` is 0 with the sensors enabled and bit 3 (proximity) is
set too; and no pass of `loop` sends a fault byte with bit 1 set and bit 3 clear. -/
theorem C19_no_echo_implies_proximity (s t : ECU) (i : TickInput)
    (h : (faultStep s).faultFlags.testBit 1 = true) :
    (faultStep s).faultFlags.testBit 3 = true ∧
    s.sensorsEnabled = true ∧
    s.distanceCm = 0 ∧
    ¬ (((loop t i).2.byte 3).testBit 1 = true ∧ ((loop t i).2.byte 3).testBit 3 = false) := by
  have key : ∀ x : ECU, (faultStep x).faultFlags.testBit 1 = true →
      (faultStep x).faultFlags.testBit 3 = true ∧ x.sensorsEnabled = true ∧ x.distanceCm = 0 := by
    intro x hx
    rw [faultStep_bit1, decide_eq_true_eq] at hx
    rw [faultStep_bit3, decide_eq_true_eq]
    exact ⟨⟨hx.1, by omega⟩, hx.1, hx.2⟩
  refine ⟨(key s h).1, (key s h).2.1, (key s h).2.2, ?_⟩
  rintro ⟨h1, h3⟩
  rw [loop_byte3, loop_fst] at h1 h3
  rw [(key _ h1).1] at h3
  exact Bool.noConfusion h3

/-- C19 at the enabled state with no echo, and at the pass that receives the enable
command and times out on the echo. -/
theorem C19_no_echo_implies_proximity_witness :
    (faultStep (ECU.reversing 0 0 false false)).faultFlags.testBit 1 = true ∧
    ((faultStep (ECU.reversing 0 0 false false)).faultFlags.testBit 3 = true ∧
    (ECU.reversing 0 0 false false).sensorsEnabled = true ∧
    (ECU.reversing 0 0 false false).distanceCm = 0 ∧
    ¬ (((loop ECU.init (TickInput.command 500 0 1 1)).2.byte 3).testBit 1 = true ∧
      ((loop ECU.init (TickInput.command 500 0 1 1)).2.byte 3).testBit 3 = false)) :=
  ⟨by decide,
    C19_no_echo_implies_proximity (ECU.reversing 0 0 false false) ECU.init
      (TickInput.command 500 0 1 1) (by decide)⟩

/-! ## The distance computed from the echo pulse -/

theorem toLong_small (d : Nat) (h : d < 2147483648) : toLong d = (d : Int) := by
  unfold toLong
  have h1 : d % 4294967296 = d := Nat.mod_eq_of_lt (by omega)
  rw [h1, if_pos h]

/-- C20: for every echo pulse duration `d` with `0 <= d <= 40000` microseconds,
`readDistance` returns `floor(d / 58)`, which is at most 689 and is the quotient
itself, not a 16-bit truncation of it; it returns the no-echo value 0 exactly when
`d < 58`, which covers the timeout `d = 0` and every echo shorter than 58. -/
theorem C20_readDistance_quotient (d : Nat) (h : d ≤ 40000) :
    readDistance d = d / 58 ∧
    readDistance d ≤ 689 ∧
    readDistance d < 65536 ∧
    Int.tdiv (toLong d) 58 = (readDistance d : Int) ∧
    (readDistance d = 0 ↔ d < 58) := by
  have hl : toLong d = (d : Int) := toLong_small d (by omega)
  have hq : Int.tdiv (d : Int) 58 = ((d / 58 : Nat) : Int) := (Int.ofNat_tdiv d 58).symm
  have hr : readDistance d = d / 58 := by
    unfold readDistance
    simp only [hl]
    by_cases h0 : (d : Int) = 0
    · rw [if_pos h0]; omega
    · rw [if_neg h0, hq]; omega
  refine ⟨hr, ?_, ?_, ?_, ?_⟩
  · rw [hr]; omega
  · rw [hr]; omega
  · rw [hl, hq, hr]
  · rw [hr]; omega

/-- C20 at the longest pulse `pulseIn` waits for. -/
theorem C20_readDistance_quotient_witness :
    (40000 : Nat) ≤ 40000 ∧
    (readDistance 40000 = 40000 / 58 ∧
    readDistance 40000 ≤ 689 ∧
    readDistance 40000 < 65536 ∧
    Int.tdiv (toLong 40000) 58 = (readDistance 40000 : Int) ∧
    (readDistance 40000 = 0 ↔ 40000 < 58)) :=
  ⟨by decide, C20_readDistance_quotient 40000 (by decide)⟩

end CanEcu
